import Mathlib

/-!
Verification of `threadpool.hpp` (linzeyu599/ThreadPool) against its
natural-language specification.

The header fully implements the type-erased container `Any` (spec: Value) and
the counting `Semaphore` (spec: Latch).  For `Result`, `Task`, `Thread` and
`ThreadPool` the header carries only declarations; where a claim depends on a
missing method body, the definition is modelled from the spec and its doc
comment says so.

C++ templates are embedded through a small closed universe `Ty` of payload
types with a decidable equality, standing for the RTTI type identity that
`dynamic_cast` tests at runtime.
-/

namespace TP

/-- Closed universe of payload types, standing in for the C++ template
parameter `T` of `Any::Any<T>` and `Any::cast_<T>`. -/
inductive Ty where
  | tInt
  | tULong
  | tString
  | tUnit
  deriving DecidableEq

/-- Interpretation of the payload-type universe. -/
@[reducible] def Ty.interp : Ty → Type
  | .tInt => Int
  | .tULong => Nat
  | .tString => String
  | .tUnit => Unit

/-- The error thrown by `Any::cast_` : `throw "type is unmatch!"`
(spec name: TypeMismatch). -/
inductive CastError where
  | typeMismatch
  deriving DecidableEq

/-- `class Any`: `std::unique_ptr<Base> base_` where the stored object is a
`Derive<T>` holding `T data_`.  `none` is the null pointer: the state after
`Any() = default` or after the unique pointer has been moved from. -/
structure Any where
  base_ : Option (Sigma Ty.interp)

/-- `Any() = default`: the member `base_` is a null `unique_ptr`. -/
def Any.default_ : Any := ⟨none⟩

/-- `template<typename T> Any(T data) : base_(std::make_unique<Derive<T>>(data))`. -/
def Any.ofData (t : Ty) (data : t.interp) : Any := ⟨some ⟨t, data⟩⟩

/-- `Any(Any&&) = default`: moving `std::unique_ptr` transfers the pointer and
leaves the source null.  Returns (destination, source after the move). -/
def Any.moveOut (a : Any) : Any × Any := (⟨a.base_⟩, ⟨none⟩)

/-- `template<typename T> T cast_()`:
`Derive<T>* pd = dynamic_cast<Derive<T>*>(base_.get());` — null when `base_`
is null or when the stored `Derive<T'>` has `T' ≠ T`; then
`if (pd == nullptr) throw "type is unmatch!"; return pd->data_;`.
The method reads `base_` and never writes it, so the post-state of the object
is returned unchanged alongside the extracted copy of `data_`. -/
def Any.cast_ (t : Ty) (a : Any) : Except CastError (t.interp × Any) :=
  match a.base_ with
  | none => .error .typeMismatch
  | some ⟨tStored, d⟩ =>
      if h : tStored = t then .ok (h ▸ d, a) else .error .typeMismatch

/-- `Except.isOk` for the cast result, to state success without naming the
extracted value. -/
def castOk (t : Ty) (a : Any) : Bool :=
  match a.cast_ t with
  | .ok _ => true
  | .error _ => false

/-- C1: for every payload type `T` and value `v`, constructing an `Any` from
`v` and extracting with the same `T` returns the original payload unchanged
(round-trip `Any(v).cast_<T>() == v`); the stored state is not disturbed. -/
theorem any_roundtrip (t : Ty) (v : t.interp) :
    Any.cast_ t (Any.ofData t v) = .ok (v, Any.ofData t v) := by
  simp [Any.cast_, Any.ofData]

/-- C2: extraction with requested type `T'` from an `Any` built with payload
type `T` succeeds iff `T' = T`; on success it yields the payload, and when the
types differ it fails with the TypeMismatch error (`throw "type is unmatch!"`). -/
theorem any_cast_iff (t tReq : Ty) (v : t.interp) :
    (castOk tReq (Any.ofData t v) = true ↔ tReq = t) ∧
    (tReq ≠ t → Any.cast_ tReq (Any.ofData t v) = .error .typeMismatch) ∧
    Any.cast_ t (Any.ofData t v) = .ok (v, Any.ofData t v) := by
  by_cases h : tReq = t
  · subst h
    exact ⟨by simp [castOk, Any.cast_, Any.ofData], fun hne => absurd rfl hne,
      by simp [Any.cast_, Any.ofData]⟩
  · have hne2 : ¬ (t = tReq) := fun h2 => h h2.symm
    have hcast : Any.cast_ tReq (Any.ofData t v) = .error .typeMismatch := by
      simp [Any.cast_, Any.ofData, hne2]
    refine ⟨?_, fun _ => hcast, by simp [Any.cast_, Any.ofData]⟩
    simp [castOk, hcast, h]

/-- Witness for C2 at a concrete mismatched pair: extracting `tString` from an
`Any` built with an `Int` payload fails with TypeMismatch. -/
theorem any_cast_iff_witness :
    Any.cast_ Ty.tString (Any.ofData Ty.tInt 5) = .error CastError.typeMismatch :=
  (any_cast_iff Ty.tInt Ty.tString 5).2.1 (by decide)

/-- C6 counterexample: `cast_` does not consume the stored payload.  On
`Any a(5)`, a first `cast_<int>()` succeeds and leaves `base_` untouched (the
method never writes it), so a second `cast_<int>()` on the same object
succeeds and yields 5 again — contradicting "after one successful extract the
Value no longer holds the payload, so a second extraction cannot yield it
again". -/
theorem any_cast_consumes_cex :
    (Any.cast_ Ty.tInt (Any.ofData Ty.tInt 5)).bind
        (fun p => Any.cast_ Ty.tInt p.2) =
      .ok ((5 : Int), Any.ofData Ty.tInt 5) := by
  simp [Any.cast_, Any.ofData, Except.bind]

/-- C6 amended: a successful `cast_<T>` copies `data_` out and leaves the
stored payload in place, so extracting twice from the same `Any` succeeds both
times and yields the same payload; consumption of a Value happens only through
C++ move semantics on the `Any` object itself, not through `cast_`. -/
theorem any_cast_not_consuming (t : Ty) (v : t.interp) :
    (Any.cast_ t (Any.ofData t v)).bind (fun p => Any.cast_ t p.2) =
      .ok (v, Any.ofData t v) := by
  simp [Any.cast_, Any.ofData, Except.bind]

/-- C10: an empty `Any` — `base_` null, as after `Any() = default` or after
being moved from — fails `cast_<T>` with TypeMismatch for every requested `T`:
`dynamic_cast` on the null `base_.get()` yields null, and the null check
throws before any dereference. -/
theorem any_cast_empty (t : Ty) (a : Any) :
    (a.base_ = none → Any.cast_ t a = .error CastError.typeMismatch) ∧
    Any.default_.base_ = none ∧ (Any.moveOut a).2.base_ = none := by
  refine ⟨fun h => ?_, rfl, rfl⟩
  obtain ⟨b⟩ := a
  simp only at h
  subst h
  rfl

/-- Witness for C10: extracting `int` from a default-constructed `Any` fails
with TypeMismatch. -/
theorem any_cast_empty_witness :
    Any.cast_ Ty.tInt Any.default_ = .error CastError.typeMismatch :=
  (any_cast_empty Ty.tInt Any.default_).1 rfl

/-! ## Semaphore (spec: Latch) -/

/-- The two operations of `class Semaphore`. -/
inductive SemOp where
  | wait
  | post
  deriving DecidableEq

/-- `Semaphore(int limit = 0)`: the default-constructed semaphore (as used in
`Result`) starts with `resLimit_ = 0`. -/
def semInit : Int := 0

/-- One step of `Semaphore`, on the counter `resLimit_` (a C++ `int`).
`post()`: `resLimit_++; cond_.notify_all()`.
`wait()`: `cond_.wait(lock, resLimit_ > 0); resLimit_--` — it completes only
when `resLimit_ > 0`; otherwise the caller stays blocked, modelled as `none`. -/
def semStep (c : Int) : SemOp → Option Int
  | .post => some (c + 1)
  | .wait => if 0 < c then some (c - 1) else none

/-- Runs a sequence of semaphore operations from counter `c`; `none` as soon
as a `wait` blocks with no matching `post` before it. -/
def semRun (c : Int) : List SemOp → Option Int
  | [] => some c
  | op :: rest => (semStep c op).bind fun c2 => semRun c2 rest

/-- Number of `post` (signal) operations in a trace. -/
def countPosts : List SemOp → Nat
  | [] => 0
  | .post :: rest => countPosts rest + 1
  | .wait :: rest => countPosts rest

/-- Number of completed `wait` operations in a trace. -/
def countWaits : List SemOp → Nat
  | [] => 0
  | .wait :: rest => countWaits rest + 1
  | .post :: rest => countWaits rest

/-- Counter bookkeeping along any completed trace: the final counter is the
start plus posts minus waits, and it never goes negative when started
non-negative. -/
theorem semRun_invariant (ops : List SemOp) :
    ∀ (s c : Int), 0 ≤ s → semRun s ops = some c →
      c = s + (countPosts ops : Int) - (countWaits ops : Int) ∧ 0 ≤ c := by
  induction ops with
  | nil =>
      intro s c hs h
      simp [semRun] at h
      subst h
      simp [countPosts, countWaits]
      omega
  | cons op rest ih =>
      intro s c hs h
      cases op with
      | post =>
          simp [semRun, semStep] at h
          have := ih (s + 1) c (by omega) h
          simp [countPosts, countWaits]
          omega
      | wait =>
          by_cases hpos : 0 < s
          · simp [semRun, semStep, hpos] at h
            have := ih (s - 1) c (by omega) h
            simp [countPosts, countWaits]
            omega
          · simp [semRun, semStep, hpos] at h

/-- C3: the Latch starts with count 0; `wait` blocks exactly while the count
is 0 and on return has decremented it by one; `post` (signal) increments it by
one; hence after `n` signals and `m` completed waits the count is `n - m`
(so completed waits never exceed signals), and a wait that follows a signal
returns without blocking. -/
theorem semaphore_spec (ops : List SemOp) (c : Int)
    (h : semRun semInit ops = some c) :
    semInit = 0 ∧
    c = (countPosts ops : Int) - (countWaits ops : Int) ∧
    countWaits ops ≤ countPosts ops ∧
    (semStep c SemOp.wait = none ↔ c = 0) ∧
    (∀ d : Int, semStep d SemOp.post = some (d + 1)) ∧
    (∀ d : Int, 0 < d → semStep d SemOp.wait = some (d - 1)) ∧
    semRun c [SemOp.post, SemOp.wait] = some c := by
  obtain ⟨hc, hge⟩ := semRun_invariant ops semInit c (by simp [semInit]) h
  rw [semInit] at hc
  refine ⟨rfl, by omega, ?_, ?_, fun d => rfl, fun d hd => by simp [semStep, hd], ?_⟩
  · have : (countWaits ops : Int) ≤ (countPosts ops : Int) := by omega
    exact_mod_cast this
  · constructor
    · intro hnone
      by_contra hne
      have hpos : 0 < c := by omega
      simp [semStep, hpos] at hnone
    · intro h0
      simp [semStep, h0]
  · have hpos : 0 < c + 1 := by omega
    simp [semRun, semStep, hpos, Option.bind]

/-- Witness for C3 on the trace [post, post, wait], which completes with
count 1 = 2 - 1. -/
theorem semaphore_spec_witness :
    (1 : Int) = (countPosts [SemOp.post, SemOp.post, SemOp.wait] : Int) -
      (countWaits [SemOp.post, SemOp.post, SemOp.wait] : Int) :=
  (semaphore_spec [SemOp.post, SemOp.post, SemOp.wait] 1 (by decide)).2.1

/-! ## ThreadPool (spec: Pool) and Result (spec: ResultHandle) -/

/-- `enum class PoolMode`. -/
inductive PoolMode where
  | MODE_FIXED
  | MODE_CACHED
  deriving DecidableEq

/-- The configuration and queue state of `class ThreadPool` that the settled
claims depend on.  A `std::shared_ptr<Task>` is abstracted to a task id. -/
structure PoolState where
  taskQue_ : List Nat
  taskQueMaxThreshHold_ : Nat
  threadSizeThreshHold_ : Nat
  poolMode_ : PoolMode
  isPoolRunning_ : Bool
  deriving DecidableEq

/-- The setter error of the spec taxonomy. -/
inductive PoolError where
  | alreadyRunning
  deriving DecidableEq

/-- `bool checkRunningState() const`: reads `isPoolRunning_`. -/
def checkRunningState (p : PoolState) : Bool := p.isPoolRunning_

/-- Modelled from the spec: the body of `ThreadPool::setMode` is not in the
header (only its declaration at line 190); per the spec it rejects with
AlreadyRunning when called after `start` and otherwise records the mode. -/
def setMode (p : PoolState) (m : PoolMode) : PoolState × Option PoolError :=
  if checkRunningState p then (p, some .alreadyRunning)
  else ({ p with poolMode_ := m }, none)

/-- Modelled from the spec: the body of `ThreadPool::setTaskQueMaxThreshHold`
(spec: setMaxQueueLength) is not in the header; per the spec it rejects with
AlreadyRunning after `start` and otherwise records the queue threshold. -/
def setTaskQueMaxThreshHold (p : PoolState) (n : Nat) : PoolState × Option PoolError :=
  if checkRunningState p then (p, some .alreadyRunning)
  else ({ p with taskQueMaxThreshHold_ := n }, none)

/-- Modelled from the spec: the body of `ThreadPool::setThreadSizeThreshHold`
(spec: setMaxWorkerCount) is not in the header; per the spec it rejects with
AlreadyRunning after `start` and otherwise records the worker threshold. -/
def setThreadSizeThreshHold (p : PoolState) (n : Nat) : PoolState × Option PoolError :=
  if checkRunningState p then (p, some .alreadyRunning)
  else ({ p with threadSizeThreshHold_ := n }, none)

/-- The state of `class Result`: the `Any` slot `any_`, the counter of its
semaphore `sem_`, the bound task (id) held by `task_`, and the flag
`isValid_`. -/
structure ResultState where
  any_ : Any
  semCount_ : Int
  task_ : Nat
  isValid_ : Bool

/-- Modelled from the spec: the body of `ThreadPool::submitTask` is not in the
header (declaration at line 199).  Per the spec it waits up to 1 s on
`notFull_` for `queue.length < maxQueueLength`; in this sequential model no
consumer frees space during the wait, so the timeout elapses exactly when the
queue is at the threshold.  With space: push the task and return a valid
`Result` on it; on timeout: leave the pool unchanged and return an invalid
`Result` bound to the task.  Both branches return normally — submission never
raises, which the embedding shows by being a total function. -/
def submitTask (p : PoolState) (sp : Nat) : PoolState × ResultState :=
  if p.taskQue_.length < p.taskQueMaxThreshHold_ then
    ({ p with taskQue_ := p.taskQue_ ++ [sp] }, ⟨Any.default_, semInit, sp, true⟩)
  else
    (p, ⟨Any.default_, semInit, sp, false⟩)

/-- Modelled from the spec: `Result::get`'s body is not in the header
(declaration at line 112).  Per the spec: if the handle is invalid, return an
empty Value immediately without touching the Latch; otherwise wait on the
semaphore (blocking while its count is 0, modelled as `none`) and move the
slot out. -/
def ResultState.get (r : ResultState) : Option (Any × ResultState) :=
  if r.isValid_ = false then some (Any.default_, r)
  else if 0 < r.semCount_ then
    some (r.any_, { r with any_ := Any.default_, semCount_ := r.semCount_ - 1 })
  else none

/-- C4: `submitTask` never raises — it is total, and on every input it either
enqueues the task and returns a valid handle (queue below `maxQueueLength`
within the bounded wait), or, when the timeout elapses with the queue still at
`maxQueueLength`, returns an invalid handle bound to the task with the pool
unchanged. -/
theorem submitTask_spec (p : PoolState) (sp : Nat) :
    (submitTask p sp).2.task_ = sp ∧
    (if p.taskQue_.length < p.taskQueMaxThreshHold_ then
        (submitTask p sp).1.taskQue_ = p.taskQue_ ++ [sp] ∧
          (submitTask p sp).2.isValid_ = true
      else
        (submitTask p sp).1 = p ∧ (submitTask p sp).2.isValid_ = false) := by
  by_cases h : p.taskQue_.length < p.taskQueMaxThreshHold_ <;>
    simp [submitTask, h]

/-- C5: the validity flag of the handle `submitTask` returns is true iff the
task was enqueued, and `get` on an invalid handle returns an empty Value
immediately — even with the Latch count at 0, i.e. without waiting on the
Latch. -/
theorem result_validity (p : PoolState) (sp : Nat) (r : ResultState)
    (h : r.isValid_ = false) :
    ((submitTask p sp).2.isValid_ = true ↔
      (submitTask p sp).1.taskQue_ = p.taskQue_ ++ [sp]) ∧
    ResultState.get r = some (Any.default_, r) := by
  constructor
  · by_cases hlt : p.taskQue_.length < p.taskQueMaxThreshHold_ <;>
      simp [submitTask, hlt]
  · simp [ResultState.get, h]

/-- Witness for C5: on a pool whose queue (one task, threshold one) is full,
submission yields an invalid handle, and `get` on an invalid handle with
semaphore count 0 returns an empty Value at once. -/
theorem result_validity_witness :
    ResultState.get ⟨Any.default_, 0, 9, false⟩ =
      some (Any.default_, ⟨Any.default_, 0, 9, false⟩) :=
  (result_validity ⟨[7], 1, 4, PoolMode.MODE_FIXED, true⟩ 9
    ⟨Any.default_, 0, 9, false⟩ rfl).2

/-- C7: each configuration setter called after `start` rejects with
AlreadyRunning and leaves the configuration unchanged. -/
theorem setters_reject_when_running (p : PoolState) (m : PoolMode) (n k : Nat)
    (h : p.isPoolRunning_ = true) :
    setMode p m = (p, some PoolError.alreadyRunning) ∧
    setTaskQueMaxThreshHold p n = (p, some PoolError.alreadyRunning) ∧
    setThreadSizeThreshHold p k = (p, some PoolError.alreadyRunning) := by
  simp [setMode, setTaskQueMaxThreshHold, setThreadSizeThreshHold,
    checkRunningState, h]

/-- Witness for C7: `setMode` on a concrete running pool rejects with
AlreadyRunning and returns the state unchanged. -/
theorem setters_reject_witness :
    setMode ⟨[], 1024, 1024, PoolMode.MODE_FIXED, true⟩ PoolMode.MODE_CACHED =
      (⟨[], 1024, 1024, PoolMode.MODE_FIXED, true⟩,
        some PoolError.alreadyRunning) :=
  (setters_reject_when_running ⟨[], 1024, 1024, PoolMode.MODE_FIXED, true⟩
    PoolMode.MODE_CACHED 10 10 rfl).1

/-! ## Task queue order -/

/-- Operations on `taskQue_` (`std::queue<std::shared_ptr<Task>>`, header line
224): a submission pushes at the back, a worker takes the front and pops. -/
inductive QOp where
  | enq (sp : Nat)
  | deq
  deriving DecidableEq

/-- The tasks a trace enqueues, in submission order. -/
def enqList : List QOp → List Nat
  | [] => []
  | .enq sp :: rest => sp :: enqList rest
  | .deq :: rest => enqList rest

/-- Modelled from the spec: the queue discipline of `submitTask`
(`taskQue_.emplace`, push at the back) and of the worker loop in `threadFunc`
(take `taskQue_.front()`, then pop), whose bodies are not in the header;
`taskQue_` itself is declared `std::queue` there.  State carried along the
trace: (queue contents front-first, tasks dequeued so far in order).  A `deq`
against an empty queue blocks the worker, modelled as `none`. -/
def qRun (q out : List Nat) : List QOp → Option (List Nat × List Nat)
  | [] => some (q, out)
  | .enq sp :: rest => qRun (q ++ [sp]) out rest
  | .deq :: rest =>
      match q with
      | [] => none
      | sp :: q2 => qRun q2 (out ++ [sp]) rest

/-- Along any completed trace, dequeued-so-far followed by the remaining queue
equals the starting arrangement followed by everything enqueued. -/
theorem qRun_invariant (ops : List QOp) :
    ∀ q out q2 out2, qRun q out ops = some (q2, out2) →
      out2 ++ q2 = out ++ q ++ enqList ops := by
  induction ops with
  | nil =>
      intro q out q2 out2 h
      simp [qRun] at h
      obtain ⟨h1, h2⟩ := h
      subst h1
      subst h2
      simp [enqList]
  | cons op rest ih =>
      intro q out q2 out2 h
      cases op with
      | enq sp =>
          simp only [qRun] at h
          have := ih (q ++ [sp]) out q2 out2 h
          simp [enqList, this]
      | deq =>
          cases q with
          | nil => simp [qRun] at h
          | cons sp q2a =>
              simp only [qRun] at h
              have := ih q2a (out ++ [sp]) q2 out2 h
              simp [enqList, this]

/-- C8: FIFO delivery of tasks to workers — along any trace of submissions and
worker dequeues from an initially empty queue, the dequeue sequence followed
by the still-queued tasks is exactly the enqueue sequence, and the dequeue
sequence is a prefix of it: the k-th task dequeued is the k-th task enqueued,
so a task enqueued after X is never dequeued before X. -/
theorem taskQue_fifo (ops : List QOp) (q out : List Nat)
    (h : qRun [] [] ops = some (q, out)) :
    out ++ q = enqList ops ∧ out = (enqList ops).take out.length := by
  have h1 := qRun_invariant ops [] [] q out h
  simp at h1
  refine ⟨h1, ?_⟩
  rw [← h1]
  simp [List.take_left]

/-- Witness for C8: submitting 10 and 20, dequeuing once, submitting 30 and
dequeuing again dequeues [10, 20] in order with [30] still queued. -/
theorem taskQue_fifo_witness :
    [10, 20] ++ [30] =
      enqList [QOp.enq 10, QOp.enq 20, QOp.deq, QOp.enq 30, QOp.deq] :=
  (taskQue_fifo [QOp.enq 10, QOp.enq 20, QOp.deq, QOp.enq 30, QOp.deq]
    [30] [10, 20] (by decide)).1

/-! ## Thread ids -/

/-- `static int Thread::generateId_` (header line 161): a process-wide counter
shared by every `Thread` in the process, whichever pool owns the thread.
Constructing a `Thread` takes the current counter value as its `threadId_` and
increments the counter (the spec: worker ids are fresh and monotonically
increasing).  Returns (threadId_, counter after). -/
def generateId (g : Nat) : Nat × Nat := (g, g + 1)

/-- Modelled from the spec: `ThreadPool::start(k)`'s body is not in the header
(declaration at line 202); per the spec it creates `k` workers, assigning each
a fresh id from the generator.  Returns the created worker ids in order and
the generator counter afterwards.  The counter `g` is the process-wide static
`Thread::generateId_`, not a `PoolState` field. -/
def startPool (k : Nat) (g : Nat) : List Nat × Nat :=
  match k with
  | 0 => ([], g)
  | k2 + 1 =>
      let t := generateId g
      let rest := startPool k2 t.2
      (t.1 :: rest.1, rest.2)

/-- C9 counterexample: worker ids (observable through `Thread::getId`) are
drawn from the process-wide static counter `Thread::generateId_`.  Starting
pool A with one worker before pool B starts changes the ids pool B receives
(B gets [1] instead of the [0] it gets alone), so an operation on one pool
does affect another coexisting pool — refuting "the pool keeps no
process-wide state". -/
theorem pool_shared_id_counter_cex :
    (startPool 1 (startPool 1 0).2).1 ≠ (startPool 1 0).1 := by decide

/-- C9 amended: all pool state other than the worker-id generator is held per
instance, but `Thread::generateId_` is process-wide: a pool starting `k`
workers with the shared counter at `g` receives the consecutive ids
`[g, …, g + k - 1]` and advances the counter to `g + k`, so the ids one pool
observes are offset by every worker previously created by any pool in the
process. -/
theorem pool_id_counter_law (k g : Nat) :
    startPool k g = ((List.range k).map (fun i => g + i), g + k) := by
  induction k generalizing g with
  | zero => simp [startPool]
  | succ k2 ih =>
      simp only [startPool, generateId, ih (g + 1)]
      rw [List.range_succ_eq_map]
      simp only [List.map_cons, List.map_map, Prod.mk.injEq, List.cons.injEq]
      refine ⟨⟨by omega, ?_⟩, by omega⟩
      congr 1
      funext i
      simp [Function.comp]
      omega

end TP
